import Mathlib

/-!
Verification of the filtering-and-aggregation pipeline of the Data-Narrative
dashboard (src/streamlit.py).  The script loads a CSV into a dataframe `df`,
filters it by year range / minimum CNCI / optional country, derives a
`Collab_Advantage` column (and later a `Collab_Helps` column) on a copy, and
computes several group-by aggregations (per-country sums/means, a consistency
table) plus scalar summary metrics.

The embedding below models a dataframe as a `List` of records; each numeric
CSV column is a `ℚ` (the script's arithmetic on those columns is exact
elementwise subtraction, sums, means, variances — all rational), counts are
`Int`/`Nat`.  Pandas boolean-mask filtering is `List.filter` (order-preserving
subsequence), `groupby` is grouping by the distinct values of the key column,
`sort_values`/`nlargest` are modelled with `List.insertionSort`.  Fallible
scalar computations (Python `/` raising `ZeroDivisionError`, pandas reductions
over an empty series yielding `NaN`, numpy `0/0`) are modelled with `Option`:
`none` is "the script raised or produced a non-number".
-/

namespace DataNarrative

/-- One row of `data/publications.csv` as loaded by `load_data` (line 23):
columns `Name`, `year`, `Web of Science Documents`, `Times Cited`,
`Category Normalized Citation Impact`, `Collab-CNCI`,
`% Documents in Top 1%`, `% Documents in Top 10%`. -/
structure Record where
  country : String
  year : Int
  documents : Int
  timesCited : Int
  cnci : ℚ
  collabCnci : ℚ
  topPercent1 : ℚ
  topPercent10 : ℚ
deriving DecidableEq, Repr

/-- The filter stage (src/streamlit.py lines 46-53): a boolean-mask filter by
year range and minimum CNCI, followed — when the sidebar selection is not the
sentinel `"All Countries"` — by an equality filter on `Name`. -/
def filterStage (df : List Record) (minYear maxYear : Int) (cnciMin : ℚ)
    (selectedCountry : String) : List Record :=
  let f := df.filter (fun r =>
    decide (minYear ≤ r.year) && decide (r.year ≤ maxYear) && decide (cnciMin ≤ r.cnci))
  if selectedCountry ≠ "All Countries" then
    f.filter (fun r => decide (r.country = selectedCountry))
  else f

/-- The combined filter predicate of the spec: a record passes the filter
stage iff it is in the year range, meets the CNCI threshold, and matches the
selected country (or no country is selected). -/
def passesFilter (minYear maxYear : Int) (cnciMin : ℚ) (selectedCountry : String)
    (r : Record) : Prop :=
  minYear ≤ r.year ∧ r.year ≤ maxYear ∧ cnciMin ≤ r.cnci ∧
    (selectedCountry = "All Countries" ∨ r.country = selectedCountry)

instance (minYear maxYear : Int) (cnciMin : ℚ) (selectedCountry : String) :
    DecidablePred (passesFilter minYear maxYear cnciMin selectedCountry) := by
  intro r
  unfold passesFilter
  infer_instance

theorem filterStage_eq_filter (df : List Record) (minYear maxYear : Int)
    (cnciMin : ℚ) (selectedCountry : String) :
    filterStage df minYear maxYear cnciMin selectedCountry =
      df.filter (fun r => decide (passesFilter minYear maxYear cnciMin selectedCountry r)) := by
  unfold filterStage passesFilter
  by_cases h : selectedCountry = "All Countries"
  · simp only [h, ne_eq, not_true_eq_false, if_false]
    apply List.filter_congr
    intro r _
    simp [h, Bool.and_assoc]
  · simp only [ne_eq, h, not_false_eq_true, if_true, List.filter_filter]
    apply List.filter_congr
    intro r _
    by_cases h1 : minYear ≤ r.year <;> by_cases h2 : r.year ≤ maxYear <;>
      by_cases h3 : cnciMin ≤ r.cnci <;> by_cases h4 : r.country = selectedCountry <;>
      simp [h, h1, h2, h3, h4]

/-- Claim C1: for every dataset and every filter setting, the filter stage
returns exactly the records satisfying
`minYear ≤ year ≤ maxYear ∧ cnci ≥ cnciMin ∧ (no country selected ∨ country
matches)`, as an order-preserving subsequence of the loaded list, computed
purely (the stage is a function of its inputs with no side effects). -/
theorem c1_filter_stage_spec (df : List Record) (minYear maxYear : Int)
    (cnciMin : ℚ) (selectedCountry : String) :
    filterStage df minYear maxYear cnciMin selectedCountry =
      df.filter (fun r => decide (passesFilter minYear maxYear cnciMin selectedCountry r)) ∧
    (filterStage df minYear maxYear cnciMin selectedCountry).Sublist df ∧
    (∀ r, r ∈ filterStage df minYear maxYear cnciMin selectedCountry ↔
      r ∈ df ∧ passesFilter minYear maxYear cnciMin selectedCountry r) := by
  refine ⟨filterStage_eq_filter df minYear maxYear cnciMin selectedCountry, ?_, ?_⟩
  · rw [filterStage_eq_filter]
    exact List.filter_sublist df
  · intro r
    rw [filterStage_eq_filter]
    simp [List.mem_filter]

/-- A record carrying the derived `Collab_Advantage` column added on the
copied filtered frame (src/streamlit.py lines 55-60). -/
structure RecordD extends Record where
  collabAdvantage : ℚ
deriving DecidableEq, Repr

/-- A record additionally carrying the `Collab_Helps` boolean column added in
the collaboration chapter (src/streamlit.py line 574). -/
structure RecordDH extends RecordD where
  collabHelps : Bool
deriving DecidableEq, Repr

/-- First assignment of the derived column (lines 58-60):
`filtered_df["Collab_Advantage"] = filtered_df["Collab-CNCI"] - filtered_df["Category Normalized Citation Impact"]`. -/
def addCollabAdvantage (df : List Record) : List RecordD :=
  df.map (fun r => { toRecord := r, collabAdvantage := r.collabCnci - r.cnci })

/-- Second assignment of the same column on the table that already carries it
(lines 571-573): the column is overwritten with the same elementwise formula. -/
def recomputeCollabAdvantage (df : List RecordD) : List RecordD :=
  df.map (fun r => { r with collabAdvantage := r.collabCnci - r.cnci })

/-- The collaboration chapter's derived columns (lines 571-574): recompute
`Collab_Advantage`, then `Collab_Helps = Collab_Advantage > 0`. -/
def chapter2Derive (df : List RecordD) : List RecordDH :=
  (recomputeCollabAdvantage df).map
    (fun r => { toRecordD := r, collabHelps := decide (0 < r.collabAdvantage) })

/-- The whole derived-column pipeline applied to a filtered frame: first
assignment (line 58), then the collaboration chapter's pass (lines 571-574). -/
def fullDerive (l : List Record) : List RecordDH :=
  chapter2Derive (addCollabAdvantage l)

/-- The two-row example dataset of the spec:
`{(Spain, 2020, cnci = 1.5, collabCnci = 1.3), (Spain, 2021, cnci = 1.4, collabCnci = 1.6)}`
(the remaining columns take arbitrary concrete values: the spec's example does
not constrain them). -/
def spainExample : List Record :=
  [{ country := "Spain", year := 2020, documents := 100, timesCited := 1000,
     cnci := 3/2, collabCnci := 13/10, topPercent1 := 1, topPercent10 := 10 },
   { country := "Spain", year := 2021, documents := 120, timesCited := 900,
     cnci := 7/5, collabCnci := 8/5, topPercent1 := 3, topPercent10 := 12 }]

/-- Any row of the derived pipeline output carries
`collabAdvantage = collabCnci − cnci` and `collabHelps ↔ 0 < collabAdvantage`. -/
theorem mem_fullDerive_spec (l : List Record) (r : RecordDH) (h : r ∈ fullDerive l) :
    r.collabAdvantage = r.collabCnci - r.cnci ∧
    (r.collabHelps = true ↔ 0 < r.collabAdvantage) := by
  unfold fullDerive chapter2Derive recomputeCollabAdvantage addCollabAdvantage at h
  simp only [List.map_map, List.mem_map, Function.comp] at h
  obtain ⟨x, -, rfl⟩ := h
  exact ⟨rfl, by simp⟩

/-- Claim C3: every record in the derived filtered set has
`Collab_Advantage = Collab-CNCI − CNCI` (exactly — the embedding's rational
arithmetic is stronger than the claimed 1e-9 float tolerance) and
`Collab_Helps` true exactly when `Collab_Advantage > 0`. -/
theorem c3_collab_advantage (l : List Record) (r : RecordDH) (h : r ∈ fullDerive l) :
    r.collabAdvantage = r.collabCnci - r.cnci ∧
    (r.collabHelps = true ↔ 0 < r.collabAdvantage) :=
  mem_fullDerive_spec l r h

/-- The first element of `fullDerive spainExample`, written out. -/
def c3Elem : RecordDH :=
  { toRecordD :=
    { toRecord :=
      { country := "Spain", year := 2020, documents := 100, timesCited := 1000,
        cnci := 3/2, collabCnci := 13/10, topPercent1 := 1, topPercent10 := 10 },
      collabAdvantage := -(1/5) },
    collabHelps := false }

theorem c3_collab_advantage_witness :
    c3Elem ∈ fullDerive spainExample ∧
    (c3Elem.collabAdvantage = c3Elem.collabCnci - c3Elem.cnci ∧
     (c3Elem.collabHelps = true ↔ 0 < c3Elem.collabAdvantage)) :=
  ⟨by norm_num [fullDerive, chapter2Derive, recomputeCollabAdvantage, addCollabAdvantage,
      spainExample, c3Elem],
   c3_collab_advantage spainExample c3Elem
     (by norm_num [fullDerive, chapter2Derive, recomputeCollabAdvantage, addCollabAdvantage,
        spainExample, c3Elem])⟩

/-- Claim C4: the filter stage is idempotent — applying it to its own output
with the same parameters is the identity — and re-filtering an
already-country-filtered result by the same country (line 340,
`country_data = filtered_df[filtered_df["Name"] == selected_country]`) is a
no-op. -/
theorem c4_filter_idempotent (df : List Record) (minYear maxYear : Int)
    (cnciMin : ℚ) (sel : String) :
    filterStage (filterStage df minYear maxYear cnciMin sel) minYear maxYear cnciMin sel =
      filterStage df minYear maxYear cnciMin sel ∧
    (sel ≠ "All Countries" →
      (filterStage df minYear maxYear cnciMin sel).filter (fun r => decide (r.country = sel)) =
        filterStage df minYear maxYear cnciMin sel) := by
  constructor
  · rw [filterStage_eq_filter df, filterStage_eq_filter, List.filter_filter]
    apply List.filter_congr
    intro r _
    simp
  · intro hsel
    rw [filterStage_eq_filter, List.filter_filter]
    apply List.filter_congr
    intro r _
    by_cases hp : passesFilter minYear maxYear cnciMin sel r
    · have hc : r.country = sel := hp.2.2.2.resolve_left hsel
      simp [hp, hc]
    · simp [hp]

theorem c4_filter_idempotent_witness :
    ("Spain" : String) ≠ "All Countries" ∧
    (filterStage spainExample 2003 2025 0 "Spain").filter
        (fun r => decide (r.country = "Spain")) =
      filterStage spainExample 2003 2025 0 "Spain" :=
  ⟨by decide, (c4_filter_idempotent spainExample 2003 2025 0 "Spain").2 (by decide)⟩

/-- Claim C9: the `Collab_Advantage` column is assigned twice with the same
elementwise formula (lines 58-60 and 571-573; the chapters in between only
read `filtered_df`); recomputing it on a table that already carries the column
leaves the table unchanged, and both computations produce
`collabCnci − cnci` for every row. -/
theorem c9_recompute_idempotent (l : List Record) :
    recomputeCollabAdvantage (addCollabAdvantage l) = addCollabAdvantage l ∧
    (recomputeCollabAdvantage (addCollabAdvantage l)).map (fun r => r.collabAdvantage) =
      l.map (fun r => r.collabCnci - r.cnci) ∧
    (addCollabAdvantage l).map (fun r => r.collabAdvantage) =
      l.map (fun r => r.collabCnci - r.cnci) := by
  refine ⟨?_, ?_, ?_⟩ <;>
    simp [recomputeCollabAdvantage, addCollabAdvantage, List.map_map, Function.comp]

/-- The rows of a group: the records whose `Name` equals the group key. -/
def groupRows (l : List Record) (c : String) : List Record :=
  l.filter (fun r => decide (r.country = c))

/-- Pandas column mean: sum divided by length (only ever applied to nonempty
groups below; the empty-series case, where pandas yields `NaN`, is modelled
separately with `Option` for the scalar summary metrics). -/
def qmean (xs : List ℚ) : ℚ := xs.sum / (xs.length : ℚ)

/-- The distinct group keys of `groupby("Name")`.  Pandas emits group keys
sorted; `dedup` gives them in another order, and no claim below depends on
the key order of an aggregation table (the rankings of claim C6 re-sort the
table explicitly). -/
def countryKeys (l : List Record) : List String :=
  (l.map (fun r => r.country)).dedup

/-- One row of `country_agg` (src/streamlit.py lines 472-497), after the
column renaming at lines 486-496. -/
structure CountryAggRow where
  country : String
  totalDocs : Int
  totalCitations : Int
  avgCnci : ℚ
  avgTop1 : ℚ
  avgTop10 : ℚ
  avgCollabCnci : ℚ
  yearsTracked : Nat
deriving DecidableEq, Repr

/-- The aggregated row of one country: sum of documents, sum of citations,
mean CNCI, mean Top-1%, mean Top-10%, mean Collab-CNCI and the row count
(the `"year": "count"` aggregation counts the group's rows). -/
def mkCountryAggRow (l : List Record) (c : String) : CountryAggRow :=
  { country := c
    totalDocs := ((groupRows l c).map (fun r => r.documents)).sum
    totalCitations := ((groupRows l c).map (fun r => r.timesCited)).sum
    avgCnci := qmean ((groupRows l c).map (fun r => r.cnci))
    avgTop1 := qmean ((groupRows l c).map (fun r => r.topPercent1))
    avgTop10 := qmean ((groupRows l c).map (fun r => r.topPercent10))
    avgCollabCnci := qmean ((groupRows l c).map (fun r => r.collabCnci))
    yearsTracked := (groupRows l c).length }

/-- The per-country aggregation `country_agg` (lines 472-497): one row per
distinct `Name` in the filtered frame. -/
def country_agg (l : List Record) : List CountryAggRow :=
  (countryKeys l).map (mkCountryAggRow l)

theorem country_agg_countries (l : List Record) :
    (country_agg l).map (fun row => row.country) = countryKeys l := by
  have : ((fun row => row.country) ∘ mkCountryAggRow l) = id := rfl
  simp [country_agg, List.map_map, this]

/-- Claim C5: the per-country aggregation has one row per distinct country of
the filtered set (no more, no fewer: the country column is duplicate-free and
its members are exactly the countries present), and each row carries
sum(documents), sum(timesCited), mean(cnci), mean(top1), mean(top10),
mean(collabCnci) and the row count of its group. -/
theorem c5_country_agg_spec (l : List Record) :
    (country_agg l).length = (l.map (fun r => r.country)).toFinset.card ∧
    ((country_agg l).map (fun row => row.country)).Nodup ∧
    (∀ c, c ∈ (country_agg l).map (fun row => row.country) ↔
      c ∈ l.map (fun r => r.country)) ∧
    (∀ row ∈ country_agg l,
      row.totalDocs = ((groupRows l row.country).map (fun r => r.documents)).sum ∧
      row.totalCitations = ((groupRows l row.country).map (fun r => r.timesCited)).sum ∧
      row.avgCnci = qmean ((groupRows l row.country).map (fun r => r.cnci)) ∧
      row.avgTop1 = qmean ((groupRows l row.country).map (fun r => r.topPercent1)) ∧
      row.avgTop10 = qmean ((groupRows l row.country).map (fun r => r.topPercent10)) ∧
      row.avgCollabCnci = qmean ((groupRows l row.country).map (fun r => r.collabCnci)) ∧
      row.yearsTracked = (groupRows l row.country).length) := by
  refine ⟨?_, ?_, ?_, ?_⟩
  · simp [country_agg, countryKeys, List.card_toFinset]
  · rw [country_agg_countries]
    exact (l.map (fun r => r.country)).nodup_dedup
  · intro c
    rw [country_agg_countries]
    simp [countryKeys]
  · intro row hrow
    simp only [country_agg, List.mem_map] at hrow
    obtain ⟨c, -, rfl⟩ := hrow
    exact ⟨rfl, rfl, rfl, rfl, rfl, rfl, rfl⟩

theorem c5_country_agg_spec_witness :
    mkCountryAggRow spainExample "Spain" ∈ country_agg spainExample ∧
    (mkCountryAggRow spainExample "Spain").avgCnci =
      qmean ((groupRows spainExample (mkCountryAggRow spainExample "Spain").country).map
        (fun r => r.cnci)) :=
  ⟨by norm_num [country_agg, countryKeys, spainExample],
   ((c5_country_agg_spec spainExample).2.2.2 (mkCountryAggRow spainExample "Spain")
     (by norm_num [country_agg, countryKeys, spainExample])).2.2.1⟩

/-- One row of `country_metrics` (src/streamlit.py lines 150-161). -/
structure CountryMetricsRow where
  name : String
  total_papers : Int
  total_citations : Int
  avg_cnci : ℚ
  avg_top10 : ℚ
deriving DecidableEq, Repr

/-- The quality-vs-quantity aggregation `country_metrics` (lines 150-161):
group by `Name`; sum documents, sum citations, mean CNCI, mean Top-10%. -/
def country_metrics (l : List Record) : List CountryMetricsRow :=
  (countryKeys l).map (fun c =>
    { name := c
      total_papers := ((groupRows l c).map (fun r => r.documents)).sum
      total_citations := ((groupRows l c).map (fun r => r.timesCited)).sum
      avg_cnci := qmean ((groupRows l c).map (fun r => r.cnci))
      avg_top10 := qmean ((groupRows l c).map (fun r => r.topPercent10)) })

/-- The count `value_counts()[True]` of the `Collab_Helps` column (lines 580-587): the
number of rows whose collaboration advantage is classified "helps". -/
def collabHelpsCount (l : List RecordDH) : Nat :=
  (l.filter (fun r => r.collabHelps)).length

/-- The count `value_counts()[False]`: the rows classified "hurts" (both branches of the
`len(collab_effect) == 2` conditional at lines 581-587 produce these counts,
the `else` branch via `.get(True, 0)` / `.get(False, 0)`). -/
def collabHurtsCount (l : List RecordDH) : Nat :=
  (l.filter (fun r => !r.collabHelps)).length

/-- The displayed percentage, line 588:
`success_pct = helps / len(filtered_df) * 100 if len(filtered_df) > 0 else 0`. -/
def success_pct (l : List RecordDH) : ℚ :=
  if 0 < l.length then (collabHelpsCount l : ℚ) / (l.length : ℚ) * 100 else 0

/-- Claim C7: on the spec's two-row Spain example (with no filtering — the
full-range filter is the identity on it), the per-country mean CNCI for Spain
is 1.45 = 29/20, the collaboration advantages are −0.2 and +0.2, the
`Collab_Helps` flags are false and true, and the success rate is 50%. -/
theorem c7_spain_example :
    filterStage spainExample 2003 2025 0 "All Countries" = spainExample ∧
    (country_metrics spainExample).map (fun row => (row.name, row.avg_cnci)) =
      [("Spain", 29/20)] ∧
    (fullDerive spainExample).map (fun r => r.collabAdvantage) = [-(1/5), 1/5] ∧
    (fullDerive spainExample).map (fun r => r.collabHelps) = [false, true] ∧
    success_pct (fullDerive spainExample) = 50 := by
  refine ⟨?_, ?_, ?_, ?_, ?_⟩ <;>
    norm_num [filterStage, spainExample, country_metrics, countryKeys, groupRows, qmean,
      fullDerive, chapter2Derive, recomputeCollabAdvantage, addCollabAdvantage,
      success_pct, collabHelpsCount]

/-- The Spain example extended by a row whose collaboration advantage is
exactly zero (`cnci = collabCnci = 1`): an advantage of 0 is classified
"hurts". -/
def pieExample : List Record :=
  spainExample ++
    [{ country := "France", year := 2020, documents := 50, timesCited := 10,
       cnci := 1, collabCnci := 1, topPercent1 := 0, topPercent10 := 0 }]

/-- Claim C10: in the collaboration pie-chart summary over a non-empty
derived set, every row is classified as exactly one of "helps"
(`Collab_Advantage > 0`) or "hurts" (otherwise, including an advantage of
exactly 0), the two counts sum to the number of rows, and the displayed
success percentage is `helps / rows * 100`. -/
theorem c10_collab_pie (l : List Record) (hne : fullDerive l ≠ []) :
    (∀ r ∈ fullDerive l, r.collabHelps = true ↔ 0 < r.collabAdvantage) ∧
    collabHelpsCount (fullDerive l) + collabHurtsCount (fullDerive l) =
      (fullDerive l).length ∧
    success_pct (fullDerive l) =
      (collabHelpsCount (fullDerive l) : ℚ) / ((fullDerive l).length : ℚ) * 100 := by
  refine ⟨fun r hr => (mem_fullDerive_spec l r hr).2, ?_, ?_⟩
  · exact (List.length_eq_length_filter_add (fun r : RecordDH => r.collabHelps)).symm
  · unfold success_pct
    rw [if_pos (List.length_pos.mpr hne)]

theorem c10_collab_pie_witness :
    fullDerive pieExample ≠ [] ∧
    (collabHelpsCount (fullDerive pieExample) + collabHurtsCount (fullDerive pieExample) =
      (fullDerive pieExample).length ∧
     success_pct (fullDerive pieExample) =
      (collabHelpsCount (fullDerive pieExample) : ℚ) /
        ((fullDerive pieExample).length : ℚ) * 100) :=
  ⟨by simp [fullDerive, chapter2Derive, recomputeCollabAdvantage, addCollabAdvantage,
      pieExample, spainExample],
   ⟨(c10_collab_pie pieExample (by simp [fullDerive, chapter2Derive,
        recomputeCollabAdvantage, addCollabAdvantage, pieExample, spainExample])).2.1,
    (c10_collab_pie pieExample (by simp [fullDerive, chapter2Derive,
        recomputeCollabAdvantage, addCollabAdvantage, pieExample, spainExample])).2.2⟩⟩

/-- Line 302:
`high_excellence = filtered_df[filtered_df["% Documents in Top 1%"] > 2]`. -/
def high_excellence (l : List RecordD) : List RecordD :=
  l.filter (fun r => decide (2 < r.topPercent1))

/-- The ratio `excellence_share` (lines 303-307): numpy division of the two document
sums; when the denominator is 0 numpy yields `nan` (0/0) or `inf`, never a
number — modelled as `none`. -/
def excellence_share (l : List RecordD) : Option ℚ :=
  let denom := (l.map (fun r => r.documents)).sum
  if denom = 0 then none
  else some ((((high_excellence l).map (fun r => r.documents)).sum : ℚ) / (denom : ℚ) * 100)

/-- The formatted fraction `len(high_excellence) / len(filtered_df) * 100`
(line 310): Python integer division by zero raises `ZeroDivisionError` —
modelled as `none` when the filtered frame is empty. -/
def highExcellenceRecordsPct (l : List RecordD) : Option ℚ :=
  if l.length = 0 then none
  else some (((high_excellence l).length : ℚ) / (l.length : ℚ) * 100)

/-- Line 107,
`collab_helpful_pct = (filtered_df["Collab_Advantage"] > 0).mean() * 100`: the pandas mean of an empty boolean series is `NaN` — modelled as
`none` on the empty frame. -/
def collab_helpful_pct (l : List RecordD) : Option ℚ :=
  if l.length = 0 then none
  else some (((l.filter (fun r => decide (0 < r.collabAdvantage))).length : ℚ) /
    (l.length : ℚ) * 100)

/-- Claim C2 (code bug): filtering beyond the data range (minYear = 2026)
empties the set, and the downstream metrics do NOT all degrade to 0/"N/A":
`collab_helpful_pct` (line 107) is the mean of an empty series, i.e. `NaN`,
and the Chapter-4 record share (line 310) divides `len(high_excellence)` by
`len(filtered_df) = 0`, raising `ZeroDivisionError` — both modelled as
`none`.  (The `len(filtered_df) == 0` guard at lines 422-425 sits after
Chapter 4 and is never reached.)  The excellence-share division at lines
303-307 likewise yields a non-number. -/
theorem c2_empty_filter_not_graceful :
    filterStage spainExample 2026 2030 0 "All Countries" = [] ∧
    collab_helpful_pct
      (addCollabAdvantage (filterStage spainExample 2026 2030 0 "All Countries")) = none ∧
    highExcellenceRecordsPct
      (addCollabAdvantage (filterStage spainExample 2026 2030 0 "All Countries")) = none ∧
    excellence_share
      (addCollabAdvantage (filterStage spainExample 2026 2030 0 "All Countries")) = none := by
  have h : filterStage spainExample 2026 2030 0 "All Countries" = [] := by
    norm_num [filterStage, spainExample]
  refine ⟨h, ?_, ?_, ?_⟩ <;> rw [h] <;> rfl

theorem fullDerive_toRecord (l : List Record) :
    (fullDerive l).map (fun r => r.toRecord) = l := by
  unfold fullDerive chapter2Derive recomputeCollabAdvantage addCollabAdvantage
  simp only [List.map_map]
  exact List.map_id l

/-- The script's ambient state: the cached loaded frame `df` and the working
frame `filtered_df` in its final shape.  The aggregation tables are pure
functions of `filtered_df` and are not part of the mutable state. -/
structure ScriptState where
  df : List Record
  filtered_df : List RecordDH

/-- The whole per-rerun pipeline (lines 46-60 and 571-574): filter `df`, copy
(line 55 — the derived stages build new rows, never touching `df`), assign
`Collab_Advantage`, later overwrite it and assign `Collab_Helps`. -/
def runScript (df0 : List Record) (minYear maxYear : Int) (cnciMin : ℚ)
    (sel : String) : ScriptState :=
  let filtered1 := filterStage df0 minYear maxYear cnciMin sel
  let filtered2 := addCollabAdvantage filtered1
  let filtered3 := chapter2Derive filtered2
  { df := df0, filtered_df := filtered3 }

/-- Claim C8: after the whole pipeline runs, the loaded table is unchanged —
the filter and derived-column stages only build new lists (the `.copy()`
semantics), and projecting the derived columns away from the working frame
recovers exactly the filtered rows of the untouched `df`. -/
theorem c8_loaded_frame_immutable (df0 : List Record) (minYear maxYear : Int)
    (cnciMin : ℚ) (sel : String) :
    (runScript df0 minYear maxYear cnciMin sel).df = df0 ∧
    (runScript df0 minYear maxYear cnciMin sel).filtered_df.map
        (fun r => r.toRecord) =
      filterStage df0 minYear maxYear cnciMin sel := by
  exact ⟨rfl, fullDerive_toRecord (filterStage df0 minYear maxYear cnciMin sel)⟩

/-- Sample variance with the pandas default `ddof = 1`:
`Σ (x − mean)² / (n − 1)`.  The `Std_Dev` column of the consistency table is
its square root; a rational's square root is irrational in general, so the
embedded row stores the variance and the claims below speak about
`Real.sqrt` of it — exactly the number pandas's `std` computes. -/
def sampleVar (xs : List ℚ) : ℚ :=
  (xs.map (fun x => (x - qmean xs) ^ 2)).sum / ((xs.length : ℚ) - 1)

/-- One row of the `consistency` table (src/streamlit.py lines 877-882) after
the column renaming: country, mean CNCI, standard deviation of CNCI (stored
as its square `varCnci`) and the group's row count. -/
structure ConsistencyRow where
  country : String
  avgCnci : ℚ
  varCnci : ℚ
  records : Nat
deriving DecidableEq, Repr

def mkConsistencyRow (l : List Record) (c : String) : ConsistencyRow :=
  { country := c
    avgCnci := qmean ((groupRows l c).map (fun r => r.cnci))
    varCnci := sampleVar ((groupRows l c).map (fun r => r.cnci))
    records := (groupRows l c).length }

/-- The comparison `sort_values("Std_Dev")` (ascending, line 887) uses:
comparing standard deviations is comparing variances, since `Real.sqrt` is
monotone (proved as part of claim C6 below). -/
def varLE (a b : ConsistencyRow) : Prop := a.varCnci ≤ b.varCnci

instance : DecidableRel varLE :=
  fun a b => inferInstanceAs (Decidable (a.varCnci ≤ b.varCnci))

instance : IsTotal ConsistencyRow varLE :=
  ⟨fun a b => le_total a.varCnci b.varCnci⟩

instance : IsTrans ConsistencyRow varLE :=
  ⟨fun _ _ _ hab hbc => le_trans hab hbc⟩

/-- The consistency aggregation (lines 877-887): group by `Name`, take mean,
std and count of CNCI, keep the groups with at least 10 rows, sort ascending
by `Std_Dev`.  (The `Consistency_Score` column, line 883-885, is the function
`avgCnci / (Std_Dev + 0.01)` of a kept row; it appears spelled out in the
claim-C6 theorem.) -/
def consistency (l : List Record) : List ConsistencyRow :=
  List.insertionSort varLE
    (((countryKeys l).map (mkConsistencyRow l)).filter (fun row => decide (10 ≤ row.records)))

/-- Descending comparison on `Total_Citations`, the order `nlargest(10,
"Total_Citations")` (line 503) emits its rows in. -/
def citationsGE (a b : CountryAggRow) : Prop := b.totalCitations ≤ a.totalCitations

instance : DecidableRel citationsGE :=
  fun a b => inferInstanceAs (Decidable (b.totalCitations ≤ a.totalCitations))

instance : IsTotal CountryAggRow citationsGE :=
  ⟨fun a b => le_total b.totalCitations a.totalCitations⟩

instance : IsTrans CountryAggRow citationsGE :=
  ⟨fun _ _ _ hab hbc => le_trans hbc hab⟩

/-- Descending comparison on `Avg_CNCI`, the order `nlargest(10, "Avg_CNCI")`
(line 515) emits its rows in. -/
def avgCnciGE (a b : CountryAggRow) : Prop := b.avgCnci ≤ a.avgCnci

instance : DecidableRel avgCnciGE :=
  fun a b => inferInstanceAs (Decidable (b.avgCnci ≤ a.avgCnci))

instance : IsTotal CountryAggRow avgCnciGE :=
  ⟨fun a b => le_total b.avgCnci a.avgCnci⟩

instance : IsTrans CountryAggRow avgCnciGE :=
  ⟨fun _ _ _ hab hbc => le_trans hbc hab⟩

/-- The ranking `top_citations = country_agg.nlargest(10, "Total_Citations")`
(lines 503-506): the 10 rows with the largest total citations, in descending order
of that column (tie order in pandas is first-occurrence; no claim depends on
tie order). -/
def top_citations (l : List Record) : List CountryAggRow :=
  (List.insertionSort citationsGE (country_agg l)).take 10

/-- The ranking `top_quality = country_agg.nlargest(10, "Avg_CNCI")`
(lines 515-517). -/
def top_quality (l : List Record) : List CountryAggRow :=
  (List.insertionSort avgCnciGE (country_agg l)).take 10

theorem consistency_mem (l : List Record) (row : ConsistencyRow)
    (h : row ∈ consistency l) :
    ∃ c ∈ countryKeys l, row = mkConsistencyRow l c ∧ 10 ≤ row.records := by
  unfold consistency at h
  rw [(List.perm_insertionSort varLE _).mem_iff, List.mem_filter] at h
  obtain ⟨h1, h2⟩ := h
  simp only [List.mem_map] at h1
  obtain ⟨c, hc, rfl⟩ := h1
  exact ⟨c, hc, rfl, by simpa using h2⟩

/-- Claim C6 (amended): the consistency aggregation keeps exactly the
countries whose group has at least 10 rows; a kept row carries the group's
mean CNCI and (as `Std_Dev²`) the sample standard deviation of CNCI, so its
`Consistency_Score = Avg_CNCI / (Std_Dev + 0.01)` equals the group's
`mean / (std + 0.01)`; the "most consistent" ranking is ordered ascending by
standard deviation.  The "top" rankings are each ordered descending by their
`nlargest` column: mean CNCI for the quality ranking but TOTAL (summed)
citations — not a mean — for the volume ranking (the claim's "descending by
the relevant mean" fails there, see the counterexample). -/
theorem c6_consistency_spec (l : List Record) :
    (∀ c, c ∈ (consistency l).map (fun row => row.country) ↔
      (c ∈ countryKeys l ∧ 10 ≤ (groupRows l c).length)) ∧
    (∀ row ∈ consistency l,
      row.avgCnci = qmean ((groupRows l row.country).map (fun r => r.cnci)) ∧
      row.varCnci = sampleVar ((groupRows l row.country).map (fun r => r.cnci)) ∧
      10 ≤ row.records ∧
      (row.avgCnci : ℝ) / (Real.sqrt (row.varCnci : ℝ) + 1/100) =
        ((qmean ((groupRows l row.country).map (fun r => r.cnci)) : ℚ) : ℝ) /
          (Real.sqrt ((sampleVar ((groupRows l row.country).map (fun r => r.cnci)) : ℚ) : ℝ)
            + 1/100)) ∧
    (consistency l).Pairwise
      (fun a b => Real.sqrt (a.varCnci : ℝ) ≤ Real.sqrt (b.varCnci : ℝ)) ∧
    (top_citations l).Pairwise (fun a b => b.totalCitations ≤ a.totalCitations) ∧
    (top_quality l).Pairwise (fun a b => b.avgCnci ≤ a.avgCnci) := by
  refine ⟨?_, ?_, ?_, ?_, ?_⟩
  · intro c
    constructor
    · intro h
      simp only [List.mem_map] at h
      obtain ⟨row, hrow, rfl⟩ := h
      obtain ⟨c, hc, rfl, h10⟩ := consistency_mem l row hrow
      exact ⟨hc, h10⟩
    · rintro ⟨hc, h10⟩
      simp only [List.mem_map]
      refine ⟨mkConsistencyRow l c, ?_, rfl⟩
      unfold consistency
      rw [(List.perm_insertionSort varLE _).mem_iff, List.mem_filter]
      exact ⟨List.mem_map_of_mem (mkConsistencyRow l) hc, by simpa using h10⟩
  · intro row hrow
    obtain ⟨c, -, rfl, h10⟩ := consistency_mem l row hrow
    exact ⟨rfl, rfl, h10, rfl⟩
  · apply List.Pairwise.imp ?_ (List.sorted_insertionSort varLE _)
    intro a b hab
    exact Real.sqrt_le_sqrt (by exact_mod_cast hab)
  · exact List.Pairwise.sublist (List.take_sublist 10 _)
      (List.sorted_insertionSort citationsGE (country_agg l))
  · exact List.Pairwise.sublist (List.take_sublist 10 _)
      (List.sorted_insertionSort avgCnciGE (country_agg l))

/-- Two Spain rows and one France row: Spain wins on total citations
(10 + 10 = 20 > 15) but France has both the larger mean CNCI (2 > 1) and the
larger mean citations per row (15 > 10). -/
def rankingCex : List Record :=
  [{ country := "Spain", year := 2020, documents := 10, timesCited := 10,
     cnci := 1, collabCnci := 1, topPercent1 := 0, topPercent10 := 0 },
   { country := "Spain", year := 2021, documents := 10, timesCited := 10,
     cnci := 1, collabCnci := 1, topPercent1 := 0, topPercent10 := 0 },
   { country := "France", year := 2020, documents := 10, timesCited := 15,
     cnci := 2, collabCnci := 2, topPercent1 := 0, topPercent10 := 0 }]

/-- Counterexample to claim C6 as stated: the volume ranking
(`nlargest(10, "Total_Citations")`) puts Spain (20 total citations, mean CNCI
1, mean citations 10) before France (15 total citations, mean CNCI 2, mean
citations 15), so it is NOT ordered descending by any relevant mean — neither
by mean CNCI nor by mean citations per row — only by the summed citations. -/
theorem c6_top_citations_not_by_mean :
    (top_citations rankingCex).map (fun row => (row.country, row.totalCitations)) =
      [("Spain", 20), ("France", 15)] ∧
    ¬ (top_citations rankingCex).Pairwise (fun a b => b.avgCnci ≤ a.avgCnci) ∧
    ¬ (top_citations rankingCex).Pairwise
      (fun a b => (b.totalCitations : ℚ) / (b.yearsTracked : ℚ) ≤
        (a.totalCitations : ℚ) / (a.yearsTracked : ℚ)) := by
  have h : top_citations rankingCex =
      [mkCountryAggRow rankingCex "Spain", mkCountryAggRow rankingCex "France"] := by
    simp [top_citations, country_agg, countryKeys, rankingCex, citationsGE,
      mkCountryAggRow, groupRows, qmean]
  rw [h]
  refine ⟨?_, ?_, ?_⟩
  all_goals simp [mkCountryAggRow, groupRows, qmean, rankingCex]
  all_goals norm_num

/-- Ten Spain rows (≥ the cutoff) and one France row (below it). -/
def consistencyExample : List Record :=
  (List.range 10).map (fun i =>
    { country := "Spain", year := 2003 + i, documents := 10, timesCited := 10,
      cnci := 1, collabCnci := 1, topPercent1 := 0, topPercent10 := 0 }) ++
  [{ country := "France", year := 2020, documents := 10, timesCited := 15,
     cnci := 2, collabCnci := 2, topPercent1 := 0, topPercent10 := 0 }]

theorem c6_consistency_spec_witness :
    ("Spain" ∈ countryKeys consistencyExample ∧
      10 ≤ (groupRows consistencyExample "Spain").length) ∧
    "Spain" ∈ (consistency consistencyExample).map (fun row => row.country) :=
  ⟨by norm_num [countryKeys, groupRows, consistencyExample, List.range_succ],
   ((c6_consistency_spec consistencyExample).1 "Spain").mpr
     (by norm_num [countryKeys, groupRows, consistencyExample, List.range_succ])⟩

end DataNarrative
